import Mathlib

/-!
Shallow embedding of `clusteredUsers.ts` (couchers web frontend): the map
widget logic that renders a clustered set of geolocated users, filters them
by a dynamically supplied set of user IDs, and routes clicks on clusters and
individual user pins.  Definitions follow the TypeScript source; theorems
settle the specification's claims about it.
-/

/-! ## JavaScript value model (truthiness of property values) -/

/-- A JavaScript value as it can appear in a feature property
(`cluster.properties?.cluster_id` is a number, string, boolean or null). -/
inductive JSVal where
  | jnum (n : Int)
  | jstr (s : String)
  | jbool (b : Bool)
  | jnull
deriving DecidableEq

/-- JavaScript truthiness of a value: `0`, `""`, `false` and `null` are falsy. -/
def jsTruthy : JSVal → Bool
  | .jnum n => n != 0
  | .jstr s => s != ""
  | .jbool b => b
  | .jnull => false

/-- Truthiness of an optional-chaining result: `undefined` (absent) is falsy. -/
def optTruthy : Option JSVal → Bool
  | none => false
  | some v => jsTruthy v

/-! ## Click events and the cluster zoom handler (`zoomCluster`) -/

/-- The properties object of a map feature; we track the `cluster_id`
property read by `zoomCluster` (`none` = property absent). -/
structure FeatProps where
  cluster_id : Option JSVal
deriving DecidableEq

/-- A map feature as delivered in a click event: an optional `properties`
object (can be null) and the point geometry coordinates. -/
structure Feature where
  properties : Option FeatProps
  coordinates : Int × Int
deriving DecidableEq

/-- A maplibre click event restricted to what `zoomCluster` reads:
the optional `features` array (`ev.features?.[0]`). -/
structure ClickEvent where
  features : Option (List Feature)
deriving DecidableEq

/-- One `map.flyTo` invocation: the camera target centre and the zoom passed
(`none` models an `undefined` zoom, which maplibre treats as "keep zoom"). -/
structure FlyToCall where
  center : Int × Int
  zoom : Option Int
deriving DecidableEq

/-- Observable outcome of running `zoomCluster` on one click event:
`queryIssued` carries the `cluster_id` handed to `getClusterExpansionZoom`
when that query was made, and `flyToCalls` is the list of camera moves. -/
structure ZoomOutcome where
  queryIssued : Option JSVal
  flyToCalls : List FlyToCall
deriving DecidableEq

/-- First feature of the event, `ev.features?.[0]` in the source. -/
def firstFeature (ev : ClickEvent) : Option Feature :=
  ev.features.bind List.head?

/-- Embedding of `zoomCluster`.  The asynchronous
`getClusterExpansionZoom(cluster_id, (_error, zoom) => map.flyTo({center, zoom}))`
is modelled by passing the query's eventual result `res = (error?, zoom?)` as
an argument; the source's callback ignores `_error` and calls `flyTo`
unconditionally with whatever `zoom` it received. -/
def zoomCluster (ev : ClickEvent) (res : Option String × Option Int) : ZoomOutcome :=
  match firstFeature ev with
  | none => { queryIssued := none, flyToCalls := [] }
  | some cluster =>
    let cid := cluster.properties.bind FeatProps.cluster_id
    if optTruthy cid then
      { queryIssued := cid
        flyToCalls := [{ center := cluster.coordinates, zoom := res.2 }] }
    else
      { queryIssued := none, flyToCalls := [] }

/-! ## Result extraction (`filterData`) -/

/-- The slice of a `User.AsObject` that `filterData` reads. -/
structure UserObj where
  userId : Nat
deriving DecidableEq

/-- One entry of a page's `resultsList`; its `user` field may be absent. -/
structure SearchResult where
  user : Option UserObj
deriving DecidableEq

/-- One page of a `UserSearchRes.AsObject` infinite-query result. -/
structure SearchPage where
  resultsList : List SearchResult
deriving DecidableEq

/-- Embedding of `filterData`: flat-map the pages' result lists, project
the `user` field, keep only truthy users, and project `userId`. -/
def filterData (pages : List SearchPage) : List Nat :=
  ((((pages.map SearchPage.resultsList).flatten).map SearchResult.user).filterMap id).map
    UserObj.userId

/-- Modelled from the spec: `extractIds` flattens all pages in page order then
result order, drops exactly the results with no associated user, and maps the
rest to their user ID (order and duplicates preserved).  Stated separately so
that `filterData` can be proved to refine it. -/
def extractIdsSpec (pages : List SearchPage) : List Nat :=
  ((pages.map SearchPage.resultsList).flatten).filterMap
    (fun r => r.user.map UserObj.userId)

/-! ## Icon registrar (`addPinImages`) -/

/-- Image-registration state of the map: whether `map.hasImage("user-pin")`
holds, and how many times `map.addImage` has been called. -/
structure ImgState where
  registered : Bool
  addCount : Nat
deriving DecidableEq

/-- One synchronous invocation of `addPinImages`: if the image is already
registered it returns at once; otherwise it starts one asynchronous
`loadImage` (counted in `pending`). -/
def addPinImagesCall (st : ImgState) (pending : Nat) : ImgState × Nat :=
  if st.registered then (st, pending) else (st, pending + 1)

/-- Embedding of the `loadImage` completion callback: on an error it throws
(`Except.error`); otherwise it re-checks `hasImage` (the deliberate second
check in the source) and registers the image only if it is still absent. -/
def pinLoadCallback (st : ImgState) (err : Option String) : Except String ImgState :=
  match err with
  | some e => Except.error e
  | none =>
    if st.registered then Except.ok st
    else Except.ok { registered := true, addCount := st.addCount + 1 }

/-- State after one successful load completion. -/
def completeOk (st : ImgState) : ImgState :=
  match pinLoadCallback st none with
  | Except.ok s => s
  | Except.error _ => st

/-- Invoke `addPinImages` `n` times in a row (all before any load completes). -/
def invokeTimes : Nat → ImgState × Nat → ImgState × Nat
  | 0, s => s
  | n + 1, (st, p) => invokeTimes n (addPinImagesCall st p)

/-- Run `n` successful load completions in sequence. -/
def runCompletions : Nat → ImgState → ImgState
  | 0, st => st
  | n + 1, st => runCompletions n (completeOk st)

/-! ## Filter expressions (maplibre style expressions used by the source) -/

/-- The fragment of the maplibre expression language that the source builds:
`["in", ["get", "id"], ["literal", ids]]`. -/
inductive FExpr where
  | getProp (name : String)
  | literalIds (ids : List Int)
  | isIn (item : FExpr) (coll : FExpr)
deriving DecidableEq

/-- Values an expression evaluates to on a feature. -/
inductive FVal where
  | vInt (n : Int)
  | vList (l : List Int)
  | vBool (b : Bool)
  | vNull
deriving DecidableEq

/-- Evaluate an expression against a feature whose promoted `id` property is
`fid` (the source promotes `id` via `promoteId: "id"`). -/
def FExpr.eval (fid : Int) : FExpr → FVal
  | .getProp p => if p = "id" then .vInt fid else .vNull
  | .literalIds l => .vList l
  | .isIn a b =>
    match a.eval fid, b.eval fid with
    | .vInt x, .vList l => .vBool (decide (x ∈ l))
    | _, _ => .vBool false

/-- A filter expression accepts a feature when it evaluates to `true`. -/
def filterAccepts (f : FExpr) (fid : Int) : Bool :=
  decide (f.eval fid = FVal.vBool true)

/-! ## Source and layer registry -/

/-- Embedding of the `clustered-users` entry of the module-level `sources`
record: clustering options, the promoted identity property, and the mutable
optional `filter` that `reRenderUsersOnMap` writes or deletes. -/
structure ClusterSourceConfig where
  cluster : Bool
  clusterMaxZoom : Nat
  clusterRadius : Nat
  promoteId : String
  filter : Option FExpr
deriving DecidableEq

/-- The `sources["clustered-users"]` object as the module initialises it
(no `filter` field). -/
def clusteredUsersSource : ClusterSourceConfig :=
  { cluster := true
    clusterMaxZoom := 14
    clusterRadius := 50
    promoteId := "id"
    filter := none }

/-- Layer ids from the module-level `layers` record. -/
def clusterLayerId : String := "clusters"

/-- Id of the cluster-count text layer. -/
def clusterCountLayerId : String := "clusters-count"

/-- Id of the unclustered-point layer. -/
def unclusteredPointLayerId : String := "unclustered-points"

/-- Event handlers that can be registered on the map: the module's
`zoomCluster` function, or an externally supplied point-click callback
(identified by a tag, since callbacks are opaque). -/
inductive Handler where
  | zoomClusterH
  | userCb (k : Nat)
deriving DecidableEq

/-- A (layer, event, handler) binding as held by the rendering engine. -/
structure Binding where
  layerId : String
  event : String
  handler : Handler
deriving DecidableEq

/-- Source/layer operations issued to the rendering engine, recorded in
order so that claims about operation ordering can be stated. -/
inductive MapOp where
  | addSourceOp (id : String)
  | removeSourceOp (id : String)
  | addLayerOp (id : String)
  | removeLayerOp (id : String)
deriving DecidableEq

/-- The map's rendering state tracked by the embedding: the installed
`clustered-users` source configuration (if any), the installed layer ids in
order, the event bindings, pin-image registration, the number of pending
asynchronous image loads, and the trace of source/layer operations. -/
structure MapState where
  sourceConfig : Option ClusterSourceConfig
  layerIds : List String
  bindings : List Binding
  hasPinImage : Bool
  pendingLoads : Nat
  ops : List MapOp
deriving DecidableEq

/-- `map.on(event, layerId, handler)`: maplibre appends the listener. -/
def mapOn (st : MapState) (event layerId : String) (h : Handler) : MapState :=
  { st with bindings := st.bindings ++ [{ layerId := layerId, event := event, handler := h }] }

/-- `map.off(event, layerId, handler)`: maplibre removes the first matching
registered listener (splice at indexOf). -/
def mapOff (st : MapState) (event layerId : String) (h : Handler) : MapState :=
  { st with bindings := st.bindings.erase { layerId := layerId, event := event, handler := h } }

/-- `map.addLayer(spec)` for a layer with the given id. -/
def addLayer (st : MapState) (id : String) : MapState :=
  { st with layerIds := st.layerIds ++ [id], ops := st.ops ++ [MapOp.addLayerOp id] }

/-- `map.removeLayer(id)`. -/
def removeLayer (st : MapState) (id : String) : MapState :=
  { st with layerIds := st.layerIds.erase id, ops := st.ops ++ [MapOp.removeLayerOp id] }

/-- `map.removeSource("clustered-users")`. -/
def removeSource (st : MapState) : MapState :=
  { st with sourceConfig := none, ops := st.ops ++ [MapOp.removeSourceOp "clustered-users"] }

/-- Handler registration performed by `addClusteredUsersToMap` (lines 158-162):
the point-click callback is bound only when supplied, while the cluster-layer
`zoomCluster` handler is bound unconditionally. -/
def bindHandlers (st : MapState) (cb : Option Nat) : MapState :=
  let st1 :=
    match cb with
    | some k => mapOn st "click" unclusteredPointLayerId (Handler.userCb k)
    | none => st
  mapOn st1 "click" clusterLayerId Handler.zoomClusterH

/-- Handler removal performed by `reRenderUsersOnMap` (lines 179-182): both
`off` calls, including the one for `zoomCluster`, sit inside
`if (userClickedCallback)`, so nothing is removed when no callback is given. -/
def unbindHandlers (st : MapState) (cb : Option Nat) : MapState :=
  match cb with
  | some k =>
    mapOff (mapOff st "click" unclusteredPointLayerId (Handler.userCb k))
      "click" clusterLayerId Handler.zoomClusterH
  | none => st

/-- `addPinImages` seen at the map-state level: synchronous fast path when
the image exists, otherwise one more pending asynchronous load. -/
def addPinImagesState (st : MapState) : MapState :=
  { st with pendingLoads := if st.hasPinImage then st.pendingLoads else st.pendingLoads + 1 }

/-- The world the module operates on: the module-level mutable
`sources["clustered-users"]` object plus the map's rendering state. -/
structure World where
  globalCfg : ClusterSourceConfig
  map : MapState
deriving DecidableEq

/-- Embedding of `addClusteredUsersToMap`: add the source (installing the
current module-level configuration), ensure the pin image, add the three
layers in order [clusterLayer, clusterCountLayer, unclusteredPointLayer],
then register click handlers. -/
def addClusteredUsersToMap (w : World) (cb : Option Nat) : World :=
  let m := w.map
  let m := { m with
    sourceConfig := some w.globalCfg
    ops := m.ops ++ [MapOp.addSourceOp "clustered-users"] }
  let m := addPinImagesState m
  let m := addLayer m clusterLayerId
  let m := addLayer m clusterCountLayerId
  let m := addLayer m unclusteredPointLayerId
  let m := bindHandlers m cb
  { w with map := m }

/-- Embedding of `reRenderUsersOnMap`: unbind handlers (only when a callback
was supplied), remove the three layers in the order written in the source
(clusterLayer, clusterCountLayer, unclusteredPointLayer), remove the source,
then mutate the module-level configuration's `filter` — `if (ids)` is the
JavaScript truthiness test, under which `null` is falsy and every array
(the empty one included) is truthy — and reinstall via
`addClusteredUsersToMap`. -/
def reRenderUsersOnMap (w : World) (ids : Option (List Int)) (cb : Option Nat) : World :=
  let m := unbindHandlers w.map cb
  let m := removeLayer m clusterLayerId
  let m := removeLayer m clusterCountLayerId
  let m := removeLayer m unclusteredPointLayerId
  let m := removeSource m
  let g :=
    match ids with
    | some l =>
      { w.globalCfg with filter := some (FExpr.isIn (FExpr.getProp "id") (FExpr.literalIds l)) }
    | none => { w.globalCfg with filter := none }
  addClusteredUsersToMap { globalCfg := g, map := m } cb

/-- A convenient fully-uninstalled starting world: the module-level source
configuration as initialised, and a map with nothing installed. -/
def initialWorld : World :=
  { globalCfg := clusteredUsersSource
    map :=
      { sourceConfig := none
        layerIds := []
        bindings := []
        hasPinImage := false
        pendingLoads := 0
        ops := [] } }

/-- The binding the point-click callback `k` gets on the unclustered layer. -/
def pointClickBinding (k : Nat) : Binding :=
  { layerId := unclusteredPointLayerId, event := "click", handler := Handler.userCb k }

/-- The binding `zoomCluster` gets on the cluster layer. -/
def clusterClickBinding : Binding :=
  { layerId := clusterLayerId, event := "click", handler := Handler.zoomClusterH }

/-! ## Helper lemmas -/

/-- Projecting `user` then keeping the present ones then projecting `userId`
is the same as one `filterMap` over the results. -/
theorem user_projection_filterMap (l : List SearchResult) :
    (((l.map SearchResult.user).filterMap id).map UserObj.userId)
      = l.filterMap (fun r => r.user.map UserObj.userId) := by
  induction l with
  | nil => rfl
  | cons r rest ih => cases h : r.user <;> simp [h] <;> simpa using ih

/-- Erasing an element just appended is, up to permutation, the identity. -/
theorem erase_appended_perm {α : Type} [DecidableEq α] (l : List α) (a : α) :
    List.Perm ((l ++ [a]).erase a) l := by
  by_cases h : a ∈ l
  · rw [List.erase_append_left _ h]
    exact (List.perm_append_singleton a (l.erase a)).trans (List.perm_cons_erase h).symm
  · rw [List.erase_append_right _ h]
    simp

/-- While the image is unregistered, each `addPinImages` call adds one
pending load and changes nothing else. -/
theorem invokeTimes_unregistered (n p : Nat) :
    invokeTimes n ({ registered := false, addCount := 0 }, p)
      = ({ registered := false, addCount := 0 }, p + n) := by
  induction n generalizing p with
  | zero => rfl
  | succ m ih =>
    show invokeTimes m (addPinImagesCall { registered := false, addCount := 0 } p) = _
    rw [show addPinImagesCall { registered := false, addCount := 0 } p
        = ({ registered := false, addCount := 0 }, p + 1) from rfl, ih]
    congr 1
    omega

/-- Once the image is registered, further load completions change nothing. -/
theorem runCompletions_registered (n : Nat) (c : Nat) :
    runCompletions n { registered := true, addCount := c }
      = { registered := true, addCount := c } := by
  induction n with
  | zero => rfl
  | succ m ih =>
    show runCompletions m (completeOk { registered := true, addCount := c }) = _
    rw [show completeOk { registered := true, addCount := c }
        = { registered := true, addCount := c } from rfl, ih]

/-- The reinstall step always installs the current module-level source
configuration. -/
theorem addClustered_sourceConfig (w : World) (cb : Option Nat) :
    (addClusteredUsersToMap w cb).map.sourceConfig = some w.globalCfg := by
  cases cb <;> rfl

/-- The configuration installed by `reRenderUsersOnMap` carries the
in-literal-list filter for a non-null argument and no filter for `null`. -/
theorem reRender_installed_filter (w : World) (ids : Option (List Int)) (cb : Option Nat) :
    (reRenderUsersOnMap w ids cb).map.sourceConfig.map ClusterSourceConfig.filter
      = some (ids.map fun l => FExpr.isIn (FExpr.getProp "id") (FExpr.literalIds l)) := by
  unfold reRenderUsersOnMap
  rw [addClustered_sourceConfig]
  cases ids <;> rfl

/-! ## Claim theorems -/

/-- C6: `filterData` returns the user IDs obtained by flattening all pages'
result lists in page order then result order, dropping exactly the results
with no associated user, preserving order and duplicates; on pages with
users `[7, null, 3]` and `[3]` it returns `[7, 3, 3]`. -/
theorem filterData_extracts_ids :
    (∀ pages, filterData pages = extractIdsSpec pages) ∧
    filterData
        [{ resultsList := [{ user := some { userId := 7 } }, { user := none },
            { user := some { userId := 3 } }] },
         { resultsList := [{ user := some { userId := 3 } }] }]
      = [7, 3, 3] := by
  constructor
  · intro pages
    unfold filterData extractIdsSpec
    exact user_projection_filterMap _
  · decide

/-- C7: a click whose feature list is empty (or absent) or whose first
feature lacks a `cluster_id` property issues no expansion-zoom query and
moves no camera, whatever the query environment would have answered. -/
theorem zoomCluster_noop_without_cluster_id (ev : ClickEvent)
    (res : Option String × Option Int)
    (h : firstFeature ev = none ∨
      ∃ c, firstFeature ev = some c ∧ c.properties.bind FeatProps.cluster_id = none) :
    zoomCluster ev res = { queryIssued := none, flyToCalls := [] } := by
  unfold zoomCluster
  rcases h with h | ⟨c, hc, hcid⟩
  · rw [h]
  · rw [hc]
    simp [hcid, optTruthy]

/-- Witness for C7 at a concrete no-feature click. -/
theorem zoomCluster_noop_without_cluster_id_witness :
    zoomCluster { features := some [] } (none, none)
      = { queryIssued := none, flyToCalls := [] } :=
  zoomCluster_noop_without_cluster_id { features := some [] } (none, none) (Or.inl rfl)

/-- C10: a first feature whose `cluster_id` property is present but falsy
(for example `0` or `""`) is treated exactly like a feature with no
`cluster_id`: no query, no camera move, and the outcome coincides with the
outcome for the same feature with the property removed. -/
theorem zoomCluster_falsy_cluster_id (ev : ClickEvent)
    (res : Option String × Option Int) (c : Feature) (v : JSVal)
    (hc : firstFeature ev = some c)
    (hv : c.properties.bind FeatProps.cluster_id = some v)
    (hf : jsTruthy v = false) :
    zoomCluster ev res = { queryIssued := none, flyToCalls := [] } ∧
    zoomCluster ev res
      = zoomCluster
          { features := some [{ c with properties := some { cluster_id := none } }] } res := by
  have h1 : zoomCluster ev res = { queryIssued := none, flyToCalls := [] } := by
    unfold zoomCluster
    rw [hc]
    simp [hv, optTruthy, hf]
  refine ⟨h1, ?_⟩
  rw [h1]
  rfl

/-- Witness for C10 at a concrete click whose `cluster_id` is the number 0. -/
theorem zoomCluster_falsy_cluster_id_witness :
    zoomCluster
        (ClickEvent.mk (some [Feature.mk (some (FeatProps.mk (some (JSVal.jnum 0)))) (4, 5)]))
        (none, some 9)
      = { queryIssued := none, flyToCalls := [] } :=
  (zoomCluster_falsy_cluster_id
    (ClickEvent.mk (some [Feature.mk (some (FeatProps.mk (some (JSVal.jnum 0)))) (4, 5)]))
    (none, some 9)
    (Feature.mk (some (FeatProps.mk (some (JSVal.jnum 0)))) (4, 5))
    (JSVal.jnum 0) rfl rfl rfl).1

/-- C8: when the image load completes with an error, the completion callback
propagates that error (it never swallows it) and never reaches the
registration step, so no icon is registered on that path. -/
theorem pinLoadCallback_error_propagated :
    (∀ (st : ImgState) (e : String), pinLoadCallback st (some e) = Except.error e) ∧
    (∀ (st : ImgState) (e : String) (s : ImgState),
      pinLoadCallback st (some e) ≠ Except.ok s) := by
  refine ⟨fun st e => rfl, fun st e s h => ?_⟩
  simp [pinLoadCallback] at h

/-- C5: starting unregistered, invoking `addPinImages` `n ≥ 1` times before
any load completes schedules `n` loads, and running all `n` completion
callbacks registers the icon exactly once: only the first completion calls
`addImage`, every later one is stopped by the re-check. -/
theorem icon_registered_exactly_once (n : Nat) (h : 1 ≤ n) :
    (invokeTimes n ({ registered := false, addCount := 0 }, 0)).2 = n ∧
    runCompletions (invokeTimes n ({ registered := false, addCount := 0 }, 0)).2
        (invokeTimes n ({ registered := false, addCount := 0 }, 0)).1
      = { registered := true, addCount := 1 } := by
  rw [invokeTimes_unregistered n 0]
  refine ⟨by simp, ?_⟩
  obtain ⟨m, rfl⟩ : ∃ m, n = m + 1 := ⟨n - 1, by omega⟩
  show runCompletions (0 + (m + 1)) { registered := false, addCount := 0 } = _
  rw [Nat.zero_add]
  show runCompletions m (completeOk { registered := false, addCount := 0 }) = _
  rw [show completeOk { registered := false, addCount := 0 }
      = { registered := true, addCount := 1 } from rfl]
  exact runCompletions_registered m 1

/-- Witness for C5 at three concurrent invocations. -/
theorem icon_registered_exactly_once_witness :
    1 ≤ 3 ∧
    ((invokeTimes 3 ({ registered := false, addCount := 0 }, 0)).2 = 3 ∧
     runCompletions (invokeTimes 3 ({ registered := false, addCount := 0 }, 0)).2
         (invokeTimes 3 ({ registered := false, addCount := 0 }, 0)).1
       = { registered := true, addCount := 1 }) :=
  ⟨by decide, icon_registered_exactly_once 3 (by decide)⟩

/-- C1: after `reRenderUsersOnMap` with a non-null ID list `S`, the installed
source configuration carries exactly the in-literal-list membership test
`["in", ["get", "id"], ["literal", S]]`, whose semantics on a feature with
promoted id `x` is precisely `x ∈ S`; after a call with `null`, the installed
configuration carries no filter at all. -/
theorem filter_rebuilder_correct (w : World) (cb : Option Nat) (S : List Int) :
    (reRenderUsersOnMap w (some S) cb).map.sourceConfig.map ClusterSourceConfig.filter
      = some (some (FExpr.isIn (FExpr.getProp "id") (FExpr.literalIds S))) ∧
    (∀ x : Int,
      filterAccepts (FExpr.isIn (FExpr.getProp "id") (FExpr.literalIds S)) x
        = decide (x ∈ S)) ∧
    (reRenderUsersOnMap w none cb).map.sourceConfig.map ClusterSourceConfig.filter
      = some none := by
  refine ⟨reRender_installed_filter w (some S) cb, fun x => ?_,
    reRender_installed_filter w none cb⟩
  cases h : decide (x ∈ S) <;> simp [filterAccepts, FExpr.eval, h]

/-- C9: calling `reRenderUsersOnMap` with the empty ID list installs a
membership filter over the empty set (accepting no feature), which differs
from the null call, the only one that removes the filter entirely — the
source's `if (ids)` is a truthiness test under which `[]` is truthy. -/
theorem empty_ids_differ_from_null (w : World) (cb : Option Nat) :
    (reRenderUsersOnMap w (some []) cb).map.sourceConfig.map ClusterSourceConfig.filter
      = some (some (FExpr.isIn (FExpr.getProp "id") (FExpr.literalIds []))) ∧
    (reRenderUsersOnMap w none cb).map.sourceConfig.map ClusterSourceConfig.filter
      = some none ∧
    (reRenderUsersOnMap w (some []) cb).map.sourceConfig.map ClusterSourceConfig.filter
      ≠ (reRenderUsersOnMap w none cb).map.sourceConfig.map ClusterSourceConfig.filter ∧
    (∀ x : Int,
      filterAccepts (FExpr.isIn (FExpr.getProp "id") (FExpr.literalIds [])) x = false) := by
  have h1 := reRender_installed_filter w (some []) cb
  have h2 := reRender_installed_filter w none cb
  refine ⟨h1, h2, ?_, fun x => by simp [filterAccepts, FExpr.eval]⟩
  rw [h1, h2]
  simp

/-- C3 counterexample: the uninstall step of `reRenderUsersOnMap` does not
remove the layers in reverse installation order — its very first removal is
the cluster layer, the first-installed one, not the unclustered-point layer. -/
theorem uninstall_reverse_order_cex :
    (reRenderUsersOnMap initialWorld none none).map.ops.take 4
      ≠ [MapOp.removeLayerOp unclusteredPointLayerId,
         MapOp.removeLayerOp clusterCountLayerId,
         MapOp.removeLayerOp clusterLayerId,
         MapOp.removeSourceOp "clustered-users"] := by
  decide

/-- C3 amended: the uninstall step removes the three layers in the same
order as installation — cluster layer, cluster-count layer, unclustered-point
layer — and only then removes the source, so the source is never removed
before a dependent layer; the reinstall then re-adds the source and the three
layers in installation order. -/
theorem uninstall_order (w : World) (ids : Option (List Int)) (cb : Option Nat) :
    (reRenderUsersOnMap w ids cb).map.ops
      = w.map.ops ++
        [MapOp.removeLayerOp clusterLayerId,
         MapOp.removeLayerOp clusterCountLayerId,
         MapOp.removeLayerOp unclusteredPointLayerId,
         MapOp.removeSourceOp "clustered-users",
         MapOp.addSourceOp "clustered-users",
         MapOp.addLayerOp clusterLayerId,
         MapOp.addLayerOp clusterCountLayerId,
         MapOp.addLayerOp unclusteredPointLayerId] := by
  cases cb <;> cases ids <;>
    simp [reRenderUsersOnMap, addClusteredUsersToMap, unbindHandlers, bindHandlers,
      mapOn, mapOff, removeLayer, removeSource, addLayer, addPinImagesState]

/-- C2 counterexample: with no point-click callback supplied, the handler
registration adds the cluster-layer `zoomCluster` binding unconditionally,
but the removal step — whose `off` calls all sit inside
`if (userClickedCallback)` — removes nothing, so bind-then-unbind on an
initially binding-free map does not restore the empty binding set. -/
theorem bind_unbind_symmetry_cex :
    ¬ List.Perm
        (unbindHandlers (bindHandlers initialWorld.map none) none).bindings
        initialWorld.map.bindings := by
  decide

/-- C2 amended: when a point-click callback is supplied, bind followed by
unbind restores the multiset of (layer, event, handler) bindings; when it is
omitted, unbind removes nothing and the cluster-layer `zoomCluster` binding
installed by bind is leaked. -/
theorem bind_unbind_symmetry (st : MapState) (k : Nat) :
    List.Perm (unbindHandlers (bindHandlers st (some k)) (some k)).bindings st.bindings ∧
    (unbindHandlers (bindHandlers st none) none).bindings
      = st.bindings ++ [clusterClickBinding] := by
  constructor
  · show List.Perm
      ((((st.bindings ++ [pointClickBinding k]) ++ [clusterClickBinding]).erase
          (pointClickBinding k)).erase clusterClickBinding)
      st.bindings
    rw [List.erase_append_left _ (by simp)]
    exact List.Perm.trans
      (List.Perm.erase _ ((erase_appended_perm _ _).append_right _))
      (erase_appended_perm _ _)
  · rfl

/-- C4 counterexample: a valid cluster click whose expansion-zoom query
completes with an error and no zoom value still produces a camera movement —
the source's completion callback ignores `_error` and calls `flyTo`
unconditionally. -/
theorem zoom_query_error_still_flies_cex :
    (zoomCluster
        (ClickEvent.mk (some [Feature.mk (some (FeatProps.mk (some (JSVal.jnum 5)))) (1, 2)]))
        (some "query failed", none)).flyToCalls ≠ [] := by
  decide

/-- C4 amended: when a cluster click's expansion-zoom query completes with an
error or without a zoom value, no error is surfaced — the outcome is the same
as for an error-free completion with the same zoom — but `flyTo` is still
invoked once, targeting the cluster's coordinates with the (possibly missing)
zoom passed through. -/
theorem zoom_query_error_ignored (ev : ClickEvent) (e : String) (z : Option Int)
    (c : Feature) (hc : firstFeature ev = some c)
    (ht : optTruthy (c.properties.bind FeatProps.cluster_id) = true) :
    zoomCluster ev (some e, z) = zoomCluster ev (none, z) ∧
    (zoomCluster ev (some e, z)).flyToCalls = [{ center := c.coordinates, zoom := z }] := by
  unfold zoomCluster
  rw [hc]
  simp [ht]

/-- Witness for the amended C4 at a concrete errored query. -/
theorem zoom_query_error_ignored_witness :
    zoomCluster
        (ClickEvent.mk (some [Feature.mk (some (FeatProps.mk (some (JSVal.jnum 5)))) (1, 2)]))
        (some "query failed", none)
      = zoomCluster
          (ClickEvent.mk (some [Feature.mk (some (FeatProps.mk (some (JSVal.jnum 5)))) (1, 2)]))
          (none, none) ∧
    (zoomCluster
        (ClickEvent.mk (some [Feature.mk (some (FeatProps.mk (some (JSVal.jnum 5)))) (1, 2)]))
        (some "query failed", none)).flyToCalls
      = [{ center := (1, 2), zoom := none }] :=
  zoom_query_error_ignored
    (ClickEvent.mk (some [Feature.mk (some (FeatProps.mk (some (JSVal.jnum 5)))) (1, 2)]))
    "query failed" none
    (Feature.mk (some (FeatProps.mk (some (JSVal.jnum 5)))) (1, 2)) rfl rfl
